import Mathlib

/-!
Verification development for the Morse Contact Simulation Engine
(morsewalker, `src/js/app.js`).

The engine's event handlers (`cq`, `send`, `tu`, `stop`, `reset`,
`resetGameState`, `changeMode`) are embedded as pure state-transition
functions over an explicit `AppState` record.  Collaborator modules that
are not part of the provided source (`audio.js`, `util.js`, `modes.js`,
`inputs.js`, `stationGenerator.js`) are modelled from the specification;
each such definition carries a doc comment starting `Modelled from the
spec:`.  Nondeterministic or external inputs of one event-handler run
(the audio clock, random draws, generated stations, the validated form
inputs, the per-mode protocol strategy, the fuzzy matcher) are collected
in an `Env` record supplied to each transition.

Virtual-audio timestamps are modelled as rationals.
-/

namespace MorseWalker

/-- Virtual audio timeline timestamps (seconds on the shared clock). -/
abbrev Time := ℚ

/-- Tone Scheduler ("Morse Player") instance, identified by the station
timing/audio parameters it was built from (spec 4.1: wpm, Farnsworth
on/off and value, fade/QSB parameters, sidetone pitch, volume). -/
structure Player where
  wpm : Int
  enableFarnsworth : Bool
  farnsworthSpeed : Int
  sidetone : Int
  volume : Int
  qsb : Bool
  qsbPercentage : Int
deriving Repr, DecidableEq

/-- A synthetic station: immutable identity plus mutable session fields
(spec 3), with exchange attributes stored as a key-value list and the
lazily created player bound to it. -/
structure Station where
  callsign : String
  wpm : Int
  enableFarnsworth : Bool
  farnsworthSpeed : Int
  sidetone : Int
  volume : Int
  qsb : Bool
  qsbPercentage : Int
  attrs : List (String × String)
  player : Option Player
deriving Repr, DecidableEq

/-- Modelled from the spec: `audio.js` `createMorsePlayer(station)` —
builds a Tone Scheduler instance from the station's current timing and
audio parameters (spec 3: "`player`: the Tone Scheduler instance bound
to this station"). -/
def createMorsePlayer (stn : Station) : Player :=
  { wpm := stn.wpm
    enableFarnsworth := stn.enableFarnsworth
    farnsworthSpeed := stn.farnsworthSpeed
    sidetone := stn.sidetone
    volume := stn.volume
    qsb := stn.qsb
    qsbPercentage := stn.qsbPercentage }

/-- The part of a station that is not the bound player instance:
identity, timing parameters and exchange attributes. -/
def stationCore (stn : Station) :
    String × Int × Bool × Int × Int × Int × Bool × Int × List (String × String) :=
  (stn.callsign, stn.wpm, stn.enableFarnsworth, stn.farnsworthSpeed,
   stn.sidetone, stn.volume, stn.qsb, stn.qsbPercentage, stn.attrs)

/-- Validated trainee configuration as returned by `inputs.js`
`getInputs()`.  Modelled from the spec: only the fields the engine
reads in `app.js` are carried (cut-number enablement and the configured
digit-to-letter map). -/
structure Inputs where
  enableCutNumbers : Bool
  cutNumbers : List (Char × Char)
deriving Repr, DecidableEq

/-- One scheduled tone sequence: which player renders which text over
which interval of the virtual timeline. -/
structure Sound where
  player : Player
  text : String
  start : Time
  stop : Time
deriving Repr, DecidableEq

/-- Immutable log entry for a completed contact (spec 3,
ContactRecord). -/
structure ContactRecord where
  seq : Nat
  callsign : String
  wpmString : String
  attempts : Nat
  elapsed : Time
  extraInfo : String
deriving Repr, DecidableEq

/-- The whole mutable state touched by the engine: the module-level
session variables of `app.js`, the audio subsystem state (lock
watermark, scheduled sounds, background noise layer) and the UI fields
the engine reads and writes. -/
structure AppState where
  currentMode : String
  inputs : Option Inputs
  currentStations : List Station
  currentStation : Option Station
  activeStationIndex : Option Nat
  readyForTU : Bool
  currentStationAttempts : Nat
  currentStationStartTime : Option Time
  totalContacts : Nat
  yourStation : Option Station
  lastRespondingStations : Option (List Nat)
  audioLock : Time
  backgroundStaticPlaying : Bool
  scheduledSounds : List Sound
  resultsTable : List ContactRecord
  responseField : String
  infoField : String
  infoField2 : String
  cqButtonDisabled : Bool
  activeStationsDisplay : Nat
deriving Repr, DecidableEq

/-- Per-mode protocol strategy (`modes.js` `modeLogicConfig[mode]`).
Modelled from the spec (section 6): message-construction functions and
protocol flags; `theirSignoff` is an optional capability. -/
structure ModeConfig where
  showTuStep : Bool
  requiresInfoField : Bool
  requiresInfoField2 : Bool
  extraInfoFieldKey : Option String
  extraInfoFieldKey2 : Option String
  cqMessage : Station → Option Station → Option String → String
  yourExchange : Station → Station → Option String → String
  theirExchange : Station → Station → Option String → String
  yourSignoff : Station → Station → Option String → String
  theirSignoff : Option (Station → Station → Option String → String)

/-- All external inputs of one event-handler run: the audio clock
reading, the tone-duration function of the (missing) audio backend, the
fuzzy matcher of the (missing) `util.js`, station generation, the
validated form inputs, random draws, the continuous-mode checkbox and
the mode-configuration table. -/
structure Env where
  now : Time
  dur : Player → String → Time
  compareStrings : String → String → String
  getInputsResult : Option Inputs
  yourStationGen : Station
  callingStationGen : Station
  newStations : List Station
  randReplyDelay : Time
  randJoin : Time
  enableContinuousChecked : Bool
  modeLogicConfig : String → ModeConfig

/-- JavaScript `String.prototype.trim()`: strips whitespace from both
ends. -/
def jsTrim (s : String) : String :=
  ⟨((s.data.dropWhile Char.isWhitespace).reverse.dropWhile Char.isWhitespace).reverse⟩

/-- JavaScript `String.prototype.toUpperCase()` on the ASCII range the
engine works with. -/
def jsToUpper (c : Char) : Char :=
  if 'a' ≤ c ∧ c ≤ 'z' then Char.ofNat (c.toNat - 32) else c

/-- JavaScript `String.prototype.toUpperCase()`. -/
def jsToUpperCase (s : String) : String :=
  ⟨s.data.map jsToUpper⟩

/-- JavaScript `String.prototype.includes(c)` for a one-character
needle. -/
def jsIncludesChar (s : String) (c : Char) : Bool :=
  s.data.contains c

/-- The literal `0.4` of `app.js` line 917 (chance of a new station
joining after a completed contact). -/
def newStationChance : ℚ := ⟨2, 5, by norm_num, by norm_num⟩

/-- Modelled from the spec: `audio.js` `getAudioLock()` — "returns true
iff `Clock.now < Lock`" (spec 4.2). -/
def getAudioLock (env : Env) (s : AppState) : Bool :=
  decide (env.now < s.audioLock)

/-- Modelled from the spec: `audio.js` `updateAudioLock(timestamp)` —
the Lock "is an explicit watermark independent of the Clock, updated by
callers via `updateAudioLock(timestamp)`" (spec 4.2); callers always
pass the end timestamp returned by the scheduling call. -/
def updateAudioLock (s : AppState) (t : Time) : AppState :=
  { s with audioLock := t }

/-- Modelled from the spec: `audio.js` `stopAllAudio()` — the noise
layer's stop-all "also silences all in-flight tone events" (spec 4.3)
and `stop` "silences all audio and unlocks immediately" (spec 4.5); the
Lock is "monotonically non-decreasing except on explicit reset/stop"
(spec 3). -/
def stopAllAudio (s : AppState) : AppState :=
  { s with scheduledSounds := [], audioLock := 0, backgroundStaticPlaying := false }

/-- Modelled from the spec: `audio.js` `createBackgroundStatic()` —
starts the continuously running noise bed (spec 4.3). -/
def createBackgroundStatic (s : AppState) : AppState :=
  { s with backgroundStaticPlaying := true }

/-- Modelled from the spec: `audio.js` `player.playSentence(text,
startTime)` — schedules the rendered tone events "starting no earlier
than the later of the requested start time and the current lock" and
returns the completion timestamp; an empty string is a no-op returning
the start timestamp unchanged (spec 4.1).  A missing start argument
defaults to the current clock reading. -/
def playSentence (env : Env) (s : AppState) (p : Player) (text : String)
    (startReq : Option Time) : Time × AppState :=
  let req := startReq.getD env.now
  if text = "" then (req, s)
  else
    let start := max req s.audioLock
    let stop := start + env.dur p text
    (stop, { s with scheduledSounds := s.scheduledSounds ++ [⟨p, text, start, stop⟩] })

/-- The list of sounds one `playSentence` call appends to the schedule:
nothing for an empty string, otherwise the one rendered tone sequence. -/
def playTail (env : Env) (s : AppState) (p : Player) (text : String)
    (startReq : Option Time) : List Sound :=
  if text = "" then []
  else
    let start := max (startReq.getD env.now) s.audioLock
    [⟨p, text, start, start + env.dur p text⟩]

/-- Fallback player used where JavaScript would dereference a player
that is always present on every reachable path. -/
def defaultPlayer : Player :=
  { wpm := 0, enableFarnsworth := false, farnsworthSpeed := 0,
    sidetone := 0, volume := 0, qsb := false, qsbPercentage := 0 }

/-- Fallback station used where JavaScript would index with a value
that is always in range on every reachable path. -/
def defaultStation : Station :=
  { callsign := "", wpm := 0, enableFarnsworth := false, farnsworthSpeed := 0,
    sidetone := 0, volume := 0, qsb := false, qsbPercentage := 0,
    attrs := [], player := none }

/-- The player bound to a station, as dereferenced by
`station.player.playSentence(...)` in `app.js`.  On every reachable
dereference the player has been created; the fallback mirrors the
JavaScript crash-free paths only. -/
def boundPlayer (stn : Station) : Player :=
  stn.player.getD (createMorsePlayer stn)

/-- Modelled from the spec: the lazy player discipline of `util.js`
`respondWithAllStations` — the player is "created lazily, replaced if
timing parameters change" (spec 3). -/
def ensurePlayer (stn : Station) : Station :=
  match stn.player with
  | none => { stn with player := some (createMorsePlayer stn) }
  | some p =>
      if p = createMorsePlayer stn then stn
      else { stn with player := some (createMorsePlayer stn) }

/-- Apply `f` to the registry entries at each index of `idxs`, one
after the other (the pure rendering of a JavaScript loop mutating the
station objects selected by `idxs` in place). -/
def applyAt (f : Station → Station) : List Nat → List Station → List Station
  | [], l => l
  | i :: rest, l =>
    match l.get? i with
    | none => applyAt f rest l
    | some stn => applyAt f rest (l.set i (f stn))

/-- `farnsworthLowerBy` of `app.js` (line 63). -/
def farnsworthLowerBy : Int := 6

/-- The per-station QRS slow-down of `app.js` (`send`, lines 574-584 and
694-703): if Farnsworth is already enabled, lower it by
`farnsworthLowerBy` but not below 5; otherwise enable it at
`wpm - farnsworthLowerBy`. -/
def qrsUpdate (stn : Station) : Station :=
  if stn.enableFarnsworth then
    { stn with farnsworthSpeed := max 5 (stn.farnsworthSpeed - farnsworthLowerBy) }
  else
    { stn with enableFarnsworth := true, farnsworthSpeed := stn.wpm - farnsworthLowerBy }

/-- Modelled from the spec: `util.js` `respondWithAllStations(stations,
time)` — every targeted station resends its callsign, "each station's
reply is scheduled to start after the previous one's computed end"
(spec 5), with the player created lazily / refreshed from the current
timing parameters (spec 3).  Targets are given as indices into the
registry, mirroring the shared-object mutation of the JavaScript
arrays. -/
def respondWithAllStations (env : Env) : List Nat → Time → AppState → AppState
  | [], _, s => s
  | i :: rest, t, s =>
    match s.currentStations.get? i with
    | none => respondWithAllStations env rest t s
    | some stn =>
      let stn' := ensurePlayer stn
      let s' := { s with currentStations := s.currentStations.set i stn' }
      let res := playSentence env s' (boundPlayer stn') stn'.callsign (some t)
      respondWithAllStations env rest res.1 res.2

/-- Modelled from the spec: `util.js` `addStations(currentStations,
inputs)` — "populates the Station Registry with new stations" (spec
4.5); the externally generated batch is supplied by the environment,
and the registry-size indicator for the UI is refreshed (spec 6). -/
def addStations (env : Env) (s : AppState) : AppState :=
  let stations := s.currentStations ++ env.newStations
  { s with currentStations := stations, activeStationsDisplay := stations.length }

/-- JavaScript `String.prototype.replace('?', '')`: removes the first
occurrence of `'?'` only. -/
def removeFirstQM : List Char → List Char
  | [] => []
  | c :: cs => if c = '?' then cs else c :: removeFirstQM cs

/-- `responseFieldText.replace('?', '')` of `app.js` (lines 592, 717). -/
def stripQuestionMark (str : String) : String :=
  ⟨removeFirstQM str.data⟩

/-- The cut-number transliteration of `app.js` (`send`, lines 629-636):
every digit with an entry in the configured digit-to-letter map is
replaced by its mapped letter (`text.replace(/\d/g, (digit) =>
cutMap[digit] || digit)`). -/
def applyCutNumbers (cutMap : List (Char × Char)) (text : String) : String :=
  ⟨text.data.map (fun c =>
    if c.isDigit then ((cutMap.lookup c).getD c) else c)⟩

/-- JavaScript `parseInt(str, 10)`: optional sign followed by leading
decimal digits; `none` models `NaN`. -/
def jsParseInt (str : String) : Option Int :=
  let chars := (jsTrim str).data
  let core : List Char → Option Nat := fun cs =>
    let digits := cs.takeWhile Char.isDigit
    if digits = [] then none
    else some (digits.foldl (fun acc c => acc * 10 + (c.toNat - 48)) 0)
  match chars with
  | '-' :: rest => (core rest).map (fun n => -(n : Int))
  | '+' :: rest => (core rest).map (fun n => (n : Int))
  | cs => (core cs).map (fun n => (n : Int))

/-- JavaScript `Number(str)` restricted to the integer-valued strings
the station generator produces: empty/whitespace coerces to 0, a full
signed decimal string to its value, anything else to `NaN` (`none`). -/
def jsNumber (str : String) : Option Int :=
  let t := jsTrim str
  if t = "" then some 0
  else
    let core : List Char → Option Nat := fun cs =>
      if cs ≠ [] ∧ cs.all Char.isDigit then
        some (cs.foldl (fun acc c => acc * 10 + (c.toNat - 48)) 0)
      else none
    match t.data with
    | '-' :: rest => (core rest).map (fun n => -(n : Int))
    | '+' :: rest => (core rest).map (fun n => (n : Int))
    | cs => (core cs).map (fun n => (n : Int))

/-- `compareExtraInfo(fieldKey, userInput, callingStation)` of `app.js`
(lines 940-985).  The HTML span markup of the returned annotation is
abbreviated to the plain tags `OK`/`WARN`/`N/A`; the decision structure
(numeric fields parsed as integers, non-numeric entry flagged
incomplete, string fields upper-cased and trimmed, empty expected value
rendered not-applicable) follows the source. -/
def compareExtraInfo (fieldKey : Option String) (userInput : String)
    (callingStation : Station) : String :=
  match fieldKey with
  | none => ""
  | some key =>
    if key = "" then ""
    else
      let expectedValue := callingStation.attrs.lookup key
      if key = "serialNumber" ∨ key = "cwopsNumber" then
        match jsParseInt userInput with
        | none => "WARN (" ++ expectedValue.getD "undefined" ++ ")"
        | some userValInt =>
          if some userValInt = (expectedValue.getD "undefined" |> jsNumber) then
            "OK " ++ toString userValInt
          else
            "WARN " ++ toString userValInt ++ " (" ++ expectedValue.getD "undefined" ++ ")"
      else
        let upperExpectedValue := jsToUpperCase (expectedValue.getD "undefined")
        let userInput' := jsTrim (jsToUpperCase userInput)
        if upperExpectedValue = "" then "N/A"
        else if userInput' = upperExpectedValue then "OK " ++ userInput'
        else "WARN " ++ userInput' ++ " (" ++ upperExpectedValue ++ ")"

/-- The effective-speed string logged with a contact (`app.js` lines
773-777 and 885-889). -/
def wpmString (stn : Station) : String :=
  toString stn.wpm ++ (if stn.enableFarnsworth then " / " ++ toString stn.farnsworthSpeed else "")

/-- `nextSingleStation(responseStartTime)` of `app.js` (lines 995-1018):
fetches a new single-mode station, binds a fresh player, plays its
callsign after a random delay, records the start time and clears the
response field.  On line 1017 `currentStation` has just been set
non-null, so the CQ button is disabled exactly when the mode has no TU
step. -/
def nextSingleStation (env : Env) (s : AppState) (responseStartTime : Time) : AppState :=
  let modeConfig := env.modeLogicConfig s.currentMode
  let callingStation := env.callingStationGen
  let s := { s with currentStation := some callingStation,
                    currentStationAttempts := 0,
                    activeStationsDisplay := 1 }
  let callingStation := { callingStation with player := some (createMorsePlayer callingStation) }
  let s := { s with currentStation := some callingStation }
  let res := playSentence env s (boundPlayer callingStation) callingStation.callsign
    (some (responseStartTime + env.randReplyDelay + 1))
  let s := updateAudioLock res.2 res.1
  { s with currentStationStartTime := some res.1,
           responseField := "",
           cqButtonDisabled := !modeConfig.showTuStep }

/-- `cq()` of `app.js` (lines 483-522).  Note the source order: the
background static is started (with its two-second warm-up delay) before
`getInputs()` is consulted, and the module-level `inputs` variable is
assigned the (possibly null) result before the null check aborts. -/
def cq (env : Env) (s : AppState) : AppState :=
  if getAudioLock env s then s
  else
    let modeConfig := env.modeLogicConfig s.currentMode
    if !modeConfig.showTuStep && s.currentStation.isSome then s
    else
      let pair := if !s.backgroundStaticPlaying then ((2 : Time), createBackgroundStatic s)
                  else ((0 : Time), s)
      let backgroundStaticDelay := pair.1
      let s := pair.2
      match env.getInputsResult with
      | none => { s with inputs := none }
      | some inp =>
        let s := { s with inputs := some inp }
        let your := env.yourStationGen
        let your := { your with player := some (createMorsePlayer your) }
        let s := { s with yourStation := some your }
        let cqMsg := modeConfig.cqMessage your none none
        let res := playSentence env s (boundPlayer your) cqMsg
          (some (env.now + backgroundStaticDelay))
        let s := updateAudioLock res.2 res.1
        if modeConfig.showTuStep then
          let s := addStations env s
          let s := respondWithAllStations env (List.range s.currentStations.length) res.1 s
          { s with lastRespondingStations := some (List.range s.currentStations.length) }
        else
          let s := { s with cqButtonDisabled := true }
          nextSingleStation env s res.1

/-- The repeat-request branch of multi-station `send` (`app.js` lines
559-568): every active station resends, the responding set is the whole
registry, the attempt counter increments. -/
def sendMultiRepeat (env : Env) (s : AppState) (t : Time) : AppState :=
  let s := respondWithAllStations env (List.range s.currentStations.length) t s
  { s with lastRespondingStations := some (List.range s.currentStations.length),
           currentStationAttempts := s.currentStationAttempts + 1 }

/-- The QRS branch of multi-station `send` (`app.js` lines 570-589):
each station of `lastRespondingStations` gets the Farnsworth slow-down
and resends.  (If `lastRespondingStations` were still null here the
JavaScript would throw; that state is unreachable because the registry
is only populated by `cq`, which assigns it.) -/
def sendMultiQRS (env : Env) (s : AppState) (t : Time) : AppState :=
  let idxs := s.lastRespondingStations.getD []
  let s := { s with currentStations := applyAt qrsUpdate idxs s.currentStations }
  let s := respondWithAllStations env idxs t s
  { s with currentStationAttempts := s.currentStationAttempts + 1 }

/-- The fuzzy-evaluation part of multi-station `send` (`app.js` lines
591-671): matcher over every station; perfect with `?` plays `RR`;
perfect without `?` schedules both exchanges (with optional cut-number
transliteration) and arms the TU step; partial resends the partially
matched stations; no match only increments the attempt counter. -/
def sendMultiMatch (env : Env) (s : AppState) (t : Time) (text : String) : AppState :=
  let modeConfig := env.modeLogicConfig s.currentMode
  let results := s.currentStations.map
    (fun stn => env.compareStrings stn.callsign (stripQuestionMark text))
  let hasQuestionMark := jsIncludesChar text '?'
  if results.contains "perfect" then
    let matchIndex := results.indexOf "perfect"
    if hasQuestionMark then
      let res := playSentence env s
        (boundPlayer (s.currentStations.getD matchIndex defaultStation)) "RR"
        (some (t + 1/4))
      let s := updateAudioLock res.2 res.1
      { s with currentStationAttempts := s.currentStationAttempts + 1 }
    else
      let you := s.yourStation.getD defaultStation
      let matched := s.currentStations.getD matchIndex defaultStation
      let yourExchange := " " ++ modeConfig.yourExchange you matched none
      let theirExchange := modeConfig.theirExchange you matched none
      let inp := s.inputs.getD ⟨false, []⟩
      let yourExchange :=
        if inp.enableCutNumbers then applyCutNumbers inp.cutNumbers yourExchange
        else yourExchange
      let theirExchange :=
        if inp.enableCutNumbers then applyCutNumbers inp.cutNumbers theirExchange
        else theirExchange
      let res2 := playSentence env s (boundPlayer you) yourExchange (some t)
      let s := updateAudioLock res2.2 res2.1
      let res3 := playSentence env s (boundPlayer matched) theirExchange
        (some (res2.1 + 1/2))
      let s := updateAudioLock res3.2 res3.1
      { s with currentStationAttempts := s.currentStationAttempts + 1,
               readyForTU := true,
               activeStationIndex := some matchIndex }
  else if results.contains "partial" then
    let repeatIdxs := (List.range s.currentStations.length).filter
      (fun i => results.getD i "" = "partial")
    let s := respondWithAllStations env repeatIdxs t s
    { s with lastRespondingStations := some repeatIdxs,
             currentStationAttempts := s.currentStationAttempts + 1 }
  else
    { s with currentStationAttempts := s.currentStationAttempts + 1 }

/-- The multi-station scenario of `send` (`app.js` lines 551-671): no-op
on an empty registry, otherwise the trainee's text is played and locked
in, then control tokens and fuzzy evaluation are handled. -/
def sendMulti (env : Env) (s : AppState) (text : String) : AppState :=
  if s.currentStations.length = 0 then s
  else
    let res := playSentence env s (boundPlayer (s.yourStation.getD defaultStation)) text none
    let s := updateAudioLock res.2 res.1
    if text = "?" ∨ text = "AGN" ∨ text = "AGN?" then sendMultiRepeat env s res.1
    else if text = "QRS" then sendMultiQRS env s res.1
    else sendMultiMatch env s res.1 text

/-- The perfect-match completion of single-mode `send` (`app.js` lines
732-789): exchanges and both sign-offs in one chained sequence (no
cut-number transliteration on this path), the ContactRecord logged, and
the next station fetched.  Single-mode configurations define
`theirSignoff`; the empty-string fallback mirrors only unreachable
configurations. -/
def sendSinglePerfect (env : Env) (s : AppState) (cur : Station) (t : Time) : AppState :=
  let modeConfig := env.modeLogicConfig s.currentMode
  let you := s.yourStation.getD defaultStation
  let yourExchange := " " ++ modeConfig.yourExchange you cur none
  let theirExchange := modeConfig.theirExchange you cur none
  let res2 := playSentence env s (boundPlayer you) yourExchange (some t)
  let s := updateAudioLock res2.2 res2.1
  let res3 := playSentence env s (boundPlayer cur) theirExchange (some (res2.1 + 1/2))
  let s := updateAudioLock res3.2 res3.1
  let yourSignoffMessage := modeConfig.yourSignoff you cur none
  let res4 := playSentence env s (boundPlayer you) yourSignoffMessage (some (res3.1 + 1/2))
  let s := updateAudioLock res4.2 res4.1
  let theirSignoffMessage := (modeConfig.theirSignoff.getD (fun _ _ _ => "")) you cur none
  let res5 := playSentence env s (boundPlayer cur) theirSignoffMessage (some (res4.1 + 1/2))
  let s := updateAudioLock res5.2 res5.1
  let s := { s with totalContacts := s.totalContacts + 1 }
  let s := { s with resultsTable := s.resultsTable ++
      [({ seq := s.totalContacts, callsign := cur.callsign, wpmString := wpmString cur,
          attempts := s.currentStationAttempts,
          elapsed := env.now - s.currentStationStartTime.getD 0,
          extraInfo := "" } : ContactRecord)] }
  nextSingleStation env s res5.1

/-- The single-mode scenario of `send` (`app.js` lines 672-807): no-op
with no active station; repeat and QRS tokens replay the callsign (QRS
after the Farnsworth slow-down and a fresh player); a perfect match
with `?` plays `RR`, without `?` completes the contact; a partial match
or no match replays the station's callsign. -/
def sendSingle (env : Env) (s : AppState) (text : String) : AppState :=
  match s.currentStation with
  | none => s
  | some cur =>
    let res := playSentence env s (boundPlayer (s.yourStation.getD defaultStation)) text none
    let s := updateAudioLock res.2 res.1
    let t := res.1
    if text = "?" ∨ text = "AGN" ∨ text = "AGN?" then
      let res2 := playSentence env s (boundPlayer cur) cur.callsign
        (some (t + env.randReplyDelay + 1/4))
      let s := updateAudioLock res2.2 res2.1
      { s with currentStationAttempts := s.currentStationAttempts + 1 }
    else if text = "QRS" then
      let cur := qrsUpdate cur
      let cur := { cur with player := some (createMorsePlayer cur) }
      let s := { s with currentStation := some cur }
      let res2 := playSentence env s (boundPlayer cur) cur.callsign
        (some (t + env.randReplyDelay + 1/4))
      let s := updateAudioLock res2.2 res2.1
      { s with currentStationAttempts := s.currentStationAttempts + 1 }
    else
      let compareResult := env.compareStrings cur.callsign (stripQuestionMark text)
      if compareResult = "perfect" then
        let s := { s with currentStationAttempts := s.currentStationAttempts + 1 }
        if jsIncludesChar text '?' then
          let res2 := playSentence env s (boundPlayer cur) "RR" (some (t + 1))
          updateAudioLock res2.2 res2.1
        else
          sendSinglePerfect env s cur t
      else if compareResult = "partial" then
        let s := { s with currentStationAttempts := s.currentStationAttempts + 1 }
        let res2 := playSentence env s (boundPlayer cur) cur.callsign
          (some (t + env.randReplyDelay + 1/4))
        updateAudioLock res2.2 res2.1
      else
        let s := { s with currentStationAttempts := s.currentStationAttempts + 1 }
        let res2 := playSentence env s (boundPlayer cur) cur.callsign
          (some (t + env.randReplyDelay + 1/4))
        updateAudioLock res2.2 res2.1

/-- `send()` of `app.js` (lines 531-808): declined while the channel is
busy; an empty response with an empty registry is reinterpreted as CQ;
otherwise the mode selects the multi-station or single scenario. -/
def send (env : Env) (s : AppState) : AppState :=
  if getAudioLock env s then s
  else
    let modeConfig := env.modeLogicConfig s.currentMode
    let responseFieldText := jsToUpperCase (jsTrim s.responseField)
    if responseFieldText = "" then
      if s.currentStations.length = 0 then cq env s else s
    else if modeConfig.showTuStep then sendMulti env s responseFieldText
    else sendSingle env s responseFieldText

/-- The body of `tu()` once its guards pass (`app.js` lines 822-926).
`currentStations[activeStationIndex]` and the later splice both use the
recorded matched index (a null index would not pass the `readyForTU`
guard on any reachable state; the 0 default mirrors the splice's null
coercion). -/
def tuBody (env : Env) (s : AppState) : AppState :=
  let modeConfig := env.modeLogicConfig s.currentMode
  let infoValue1 := jsTrim s.infoField
  let infoValue2 := jsTrim s.infoField2
  let idx := s.activeStationIndex.getD 0
  let cur := s.currentStations.getD idx defaultStation
  let s := { s with totalContacts := s.totalContacts + 1 }
  let extraInfo := compareExtraInfo modeConfig.extraInfoFieldKey infoValue1 cur
  let extraInfo :=
    if modeConfig.requiresInfoField2 && modeConfig.extraInfoFieldKey2.isSome then
      (if extraInfo.length > 0 then extraInfo ++ " / " else extraInfo) ++
        compareExtraInfo modeConfig.extraInfoFieldKey2 infoValue2 cur
    else extraInfo
  let arbitrary : Option String :=
    if s.currentMode = "sst" then some infoValue1
    else if s.currentMode = "pota" then some infoValue1
    else none
  let you := s.yourStation.getD defaultStation
  let yourSignoffMessage := modeConfig.yourSignoff you cur arbitrary
  let res := playSentence env s (boundPlayer you) yourSignoffMessage (some (env.now + 1/2))
  let s := updateAudioLock res.2 res.1
  let pair : Time × AppState :=
    match modeConfig.theirSignoff with
    | some f =>
      let res2 := playSentence env s (boundPlayer cur) (f you cur none) (some (res.1 + 1/2))
      (res2.1, updateAudioLock res2.2 res2.1)
    | none => (res.1, s)
  let responseTimerToUse := pair.1
  let s := pair.2
  let s := { s with resultsTable := s.resultsTable ++
      [({ seq := s.totalContacts, callsign := cur.callsign, wpmString := wpmString cur,
          attempts := s.currentStationAttempts,
          elapsed := env.now - s.currentStationStartTime.getD 0,
          extraInfo := extraInfo } : ContactRecord)] }
  let s := { s with currentStations := s.currentStations.eraseIdx idx,
                    activeStationIndex := none,
                    currentStationAttempts := 0,
                    readyForTU := false }
  let s := { s with activeStationsDisplay := s.currentStations.length }
  let s := { s with responseField := "", infoField := "", infoField2 := "" }
  let s := if env.randJoin < newStationChance ∨ env.enableContinuousChecked then addStations env s
           else s
  let s := respondWithAllStations env (List.range s.currentStations.length) responseTimerToUse s
  { s with lastRespondingStations := some (List.range s.currentStations.length),
           currentStationStartTime := some env.now }

/-- `tu()` of `app.js` (lines 817-926): declined while the channel is
busy, in modes without a TU step, and unless the preceding send was a
perfect match (`readyForTU`). -/
def tu (env : Env) (s : AppState) : AppState :=
  if getAudioLock env s then s
  else
    let modeConfig := env.modeLogicConfig s.currentMode
    if !modeConfig.showTuStep || !s.readyForTU then s
    else tuBody env s

/-- `stop()` of `app.js` (lines 1026-1038): silences everything (which
frees the lock) and, in single mode only, clears the active station. -/
def stop (s : AppState) : AppState :=
  let s := stopAllAudio s
  let s := { s with cqButtonDisabled := false }
  if s.currentMode = "single" then
    { s with currentStation := none, currentStationAttempts := 0,
             currentStationStartTime := none, activeStationsDisplay := 0 }
  else s

/-- `reset()` of `app.js` (lines 1046-1072): full return to idle. -/
def reset (s : AppState) : AppState :=
  let s := { s with resultsTable := [] }
  let s := { s with totalContacts := 0, currentStation := none,
                    currentStationAttempts := 0, currentStationStartTime := none,
                    currentStations := [], activeStationIndex := none,
                    readyForTU := false }
  let s := { s with activeStationsDisplay := 0 }
  let s := updateAudioLock s 0
  let s := stopAllAudio s
  let s := { s with responseField := "", infoField := "", infoField2 := "" }
  { s with cqButtonDisabled := false }

/-- `resetGameState()` of `app.js` (lines 440-457). -/
def resetGameState (s : AppState) : AppState :=
  let s := { s with currentStations := [], currentStation := none,
                    activeStationIndex := none, readyForTU := false,
                    currentStationAttempts := 0, currentStationStartTime := none,
                    totalContacts := 0 }
  let s := { s with activeStationsDisplay := 0 }
  let s := { s with resultsTable := [] }
  let s := { s with responseField := "", infoField := "", infoField2 := "" }
  let s := { s with cqButtonDisabled := false }
  let s := stopAllAudio s
  updateAudioLock s 0

/-- `changeMode()` of `app.js` (lines 465-474): records the selected
mode and resets the game state. -/
def changeMode (m : String) (s : AppState) : AppState :=
  resetGameState { s with currentMode := m }

/-- The module-level variable initialization of `app.js` (lines 52-62)
for a given saved mode. -/
def emptyState (mode : String) : AppState :=
  { currentMode := mode, inputs := none, currentStations := [],
    currentStation := none, activeStationIndex := none, readyForTU := false,
    currentStationAttempts := 0, currentStationStartTime := none,
    totalContacts := 0, yourStation := none, lastRespondingStations := none,
    audioLock := 0, backgroundStaticPlaying := false, scheduledSounds := [],
    resultsTable := [], responseField := "", infoField := "", infoField2 := "",
    cqButtonDisabled := false, activeStationsDisplay := 0 }

/-- The state after the DOMContentLoaded initialization of `app.js`
(line 194 calls `resetGameState()`). -/
def initState (mode : String) : AppState :=
  resetGameState (emptyState mode)

/-- One user-visible event: the five engine buttons, a mode change, or
the user typing into one of the three text fields. -/
inductive Action where
  | cq (env : Env)
  | send (env : Env)
  | tu (env : Env)
  | stop
  | reset
  | changeMode (m : String)
  | typeResponse (v : String)
  | typeInfo (v : String)
  | typeInfo2 (v : String)

/-- The state transition of one event. -/
def Action.apply : Action → AppState → AppState
  | .cq env, s => MorseWalker.cq env s
  | .send env, s => MorseWalker.send env s
  | .tu env, s => MorseWalker.tu env s
  | .stop, s => MorseWalker.stop s
  | .reset, s => MorseWalker.reset s
  | .changeMode m, s => MorseWalker.changeMode m s
  | .typeResponse v, s => { s with responseField := v }
  | .typeInfo v, s => { s with infoField := v }
  | .typeInfo2 v, s => { s with infoField2 := v }

/-- States reachable from initialization by any sequence of events. -/
inductive Reachable : AppState → Prop
  | init (mode : String) : Reachable (initState mode)
  | step (a : Action) (s : AppState) : Reachable s → Reachable (a.apply s)

/-- The TU-step safety invariant: whenever the confirmation flag is
armed, the recorded matched index denotes an existing registry entry. -/
def TuInvariant (s : AppState) : Prop :=
  s.readyForTU = true →
    ∃ i, s.activeStationIndex = some i ∧ i < s.currentStations.length

/-! ### Concrete fixtures

A sample contest-like mode configuration, a sample single-mode
configuration, sample stations and environments, used to instantiate
the theorems below at concrete inputs. -/

/-- A sample contest-like (TU-step) mode configuration. -/
def cfgTU : ModeConfig :=
  { showTuStep := true, requiresInfoField := true, requiresInfoField2 := false,
    extraInfoFieldKey := some "name", extraInfoFieldKey2 := none,
    cqMessage := fun you _ _ => "CQ " ++ you.callsign,
    yourExchange := fun _ stn _ => stn.callsign ++ " 5NN",
    theirExchange := fun _ _ _ => "5NN 7",
    yourSignoff := fun _ _ _ => "TU",
    theirSignoff := some (fun _ _ _ => "GL") }

/-- A sample single-mode configuration. -/
def cfgSingle : ModeConfig :=
  { cfgTU with showTuStep := false, requiresInfoField := false, extraInfoFieldKey := none }

/-- A sample calling station. -/
def stnA : Station :=
  { callsign := "K1ABC", wpm := 20, enableFarnsworth := false, farnsworthSpeed := 0,
    sidetone := 600, volume := 5, qsb := false, qsbPercentage := 0,
    attrs := [("name", "BOB")], player := none }

/-- A sample trainee station. -/
def yourStn : Station :=
  { callsign := "W2XYZ", wpm := 25, enableFarnsworth := false, farnsworthSpeed := 0,
    sidetone := 600, volume := 5, qsb := false, qsbPercentage := 0,
    attrs := [], player := none }

/-- A sample environment: unit tone durations, an exact-equality
matcher, valid inputs with two cut numbers selected, one fresh station
per generation call. -/
def baseEnv : Env :=
  { now := 0, dur := fun _ _ => 1,
    compareStrings := fun e c => if e = c then "perfect" else "none",
    getInputsResult := some ⟨true, [('5', 'E'), ('9', 'N')]⟩,
    yourStationGen := yourStn, callingStationGen := stnA,
    newStations := [stnA], randReplyDelay := 0, randJoin := 1,
    enableContinuousChecked := false,
    modeLogicConfig := fun m => if m = "single" then cfgSingle else cfgTU }

/-- `baseEnv` with the clock advanced past any fixture lock. -/
def laterEnv : Env := { baseEnv with now := 10 }

/-- A single-mode state with one active station, a bound player, valid
cut-number inputs and the station's exact callsign typed in. -/
def singleReadyState : AppState :=
  { emptyState "single" with
      currentStation := some { stnA with player := some (createMorsePlayer stnA) },
      yourStation := some { yourStn with player := some (createMorsePlayer yourStn) },
      inputs := some ⟨true, [('5', 'E'), ('9', 'N')]⟩,
      responseField := "K1ABC" }

/-- A contest-mode state with one registered station, armed for the TU
step. -/
def tuReadyState : AppState :=
  { emptyState "sprint" with
      currentStations := [{ stnA with player := some (createMorsePlayer stnA) }],
      yourStation := some { yourStn with player := some (createMorsePlayer yourStn) },
      inputs := some ⟨true, [('5', 'E'), ('9', 'N')]⟩,
      readyForTU := true, activeStationIndex := some 0, infoField := "bob" }

/-- A contest-mode state right after the registry was populated and the
stations responded (they are the last responders). -/
def multiCalledState : AppState :=
  { emptyState "sprint" with
      currentStations := [{ stnA with player := some (createMorsePlayer stnA) }],
      yourStation := some { yourStn with player := some (createMorsePlayer yourStn) },
      inputs := some ⟨true, [('5', 'E'), ('9', 'N')]⟩,
      lastRespondingStations := some [0] }

/-- A state whose audio channel is busy until virtual time 1. -/
def lockedState : AppState := { emptyState "single" with audioLock := 1 }

/-- `baseEnv` with an invalid trainee configuration. -/
def invalidEnv : Env := { baseEnv with getInputsResult := none }

/-- A state holding previously validated inputs, with the noise layer
not yet running. -/
def heldInputsState : AppState :=
  { emptyState "single" with inputs := some ⟨true, []⟩ }

/-- A concrete reachable state with the confirmation flag armed: call
CQ in a contest mode, stop the audio (freeing the channel), type the
exact callsign of the one responding station, and send it. -/
def armedState : AppState :=
  Action.apply (.send laterEnv)
    (Action.apply (.typeResponse "K1ABC")
      (Action.apply .stop
        (Action.apply (.cq baseEnv) (initState "sprint"))))

/-! ### Helper lemmas -/

theorem stationCore_ensurePlayer (stn : Station) :
    stationCore (ensurePlayer stn) = stationCore stn := by
  unfold ensurePlayer
  split
  · rfl
  · split <;> rfl

theorem ensurePlayer_player (stn : Station) :
    (ensurePlayer stn).player = some (createMorsePlayer stn) := by
  unfold ensurePlayer
  split
  · rfl
  · rename_i p heq
    split
    · rename_i h
      rw [heq, h]
    · rfl

theorem createMorsePlayer_ensurePlayer (stn : Station) :
    createMorsePlayer (ensurePlayer stn) = createMorsePlayer stn := by
  unfold ensurePlayer
  split
  · rfl
  · split <;> rfl

theorem ensurePlayer_enableFarnsworth (stn : Station) :
    (ensurePlayer stn).enableFarnsworth = stn.enableFarnsworth := by
  unfold ensurePlayer
  split
  · rfl
  · split <;> rfl

theorem ensurePlayer_farnsworthSpeed (stn : Station) :
    (ensurePlayer stn).farnsworthSpeed = stn.farnsworthSpeed := by
  unfold ensurePlayer
  split
  · rfl
  · split <;> rfl

theorem qrsUpdate_enableFarnsworth (stn : Station) :
    (qrsUpdate stn).enableFarnsworth = true := by
  unfold qrsUpdate
  split
  · rename_i h
    exact h
  · rfl

theorem qrsUpdate_farnsworthSpeed (stn : Station) :
    (qrsUpdate stn).farnsworthSpeed =
      if stn.enableFarnsworth then max 5 (stn.farnsworthSpeed - 6)
      else stn.wpm - 6 := by
  unfold qrsUpdate farnsworthLowerBy
  split <;> simp_all

theorem applyAt_length (f : Station → Station) (idxs : List Nat) :
    ∀ l, (applyAt f idxs l).length = l.length := by
  induction idxs with
  | nil => intro l; rfl
  | cons i rest ih =>
    intro l
    unfold applyAt
    split
    · exact ih l
    · rw [ih, List.length_set]

theorem applyAt_get?_not_mem (f : Station → Station) (idxs : List Nat) (i : Nat) :
    i ∉ idxs → ∀ l, (applyAt f idxs l).get? i = l.get? i := by
  induction idxs with
  | nil => intro _ l; rfl
  | cons j rest ih =>
    intro h l
    have hij : i ≠ j ∧ i ∉ rest := by
      constructor
      · intro hc; exact h (hc ▸ List.mem_cons_self j rest)
      · intro hc; exact h (List.mem_cons_of_mem j hc)
    unfold applyAt
    split
    · exact ih hij.2 l
    · rw [ih hij.2, List.get?_set_ne _ _ (Ne.symm hij.1)]

theorem applyAt_get?_mem (f : Station → Station) (idxs : List Nat) :
    idxs.Nodup → ∀ i ∈ idxs, ∀ l stn, l.get? i = some stn →
      (applyAt f idxs l).get? i = some (f stn) := by
  induction idxs with
  | nil => intro _ i hi; exact absurd hi (List.not_mem_nil i)
  | cons j rest ih =>
    intro hnd i hi l stn hget
    have hjrest : j ∉ rest := (List.nodup_cons.mp hnd).1
    have hrest : rest.Nodup := (List.nodup_cons.mp hnd).2
    unfold applyAt
    rcases List.mem_cons.mp hi with hij | hmem
    · subst hij
      split
      · rename_i heq
        rw [hget] at heq
        exact absurd heq (by simp)
      · rename_i stn' heq
        rw [hget] at heq
        injection heq with heq
        subst heq
        rw [applyAt_get?_not_mem f rest i hjrest]
        have hlt : i < l.length := (List.get?_eq_some.mp hget).1
        exact List.get?_set_eq_of_lt (f stn) hlt
    · have hij : i ≠ j := fun hc => hjrest (hc ▸ hmem)
      split
      · exact ih hrest i hmem l stn hget
      · rename_i stnj heq
        exact ih hrest i hmem _ stn (by rw [List.get?_set_ne _ _ (Ne.symm hij)]; exact hget)

theorem map_set_of_get? {β : Type} (g : Station → β) :
    ∀ (l : List Station) (i : Nat) (stn x : Station), l.get? i = some stn →
      g x = g stn → (l.set i x).map g = l.map g := by
  intro l
  induction l with
  | nil => intro i stn x h _; exact absurd h (by simp)
  | cons b l ih =>
    intro i stn x h hx
    cases i with
    | zero =>
      injection h with h
      subst h
      simp [List.set, hx]
    | succ n =>
      simp only [List.set, List.map]
      rw [ih n stn x h hx]

theorem applyAt_map {β : Type} (f : Station → Station) (g : Station → β)
    (hg : ∀ x, g (f x) = g x) (idxs : List Nat) :
    ∀ l, (applyAt f idxs l).map g = l.map g := by
  induction idxs with
  | nil => intro l; rfl
  | cons i rest ih =>
    intro l
    unfold applyAt
    split
    · exact ih l
    · rename_i stn heq
      rw [ih, map_set_of_get? g l i stn (f stn) heq (hg stn)]

theorem playSentence_snd_of_ne (env : Env) (s : AppState) (p : Player) (text : String)
    (t : Option Time) (h : text ≠ "") :
    (playSentence env s p text t).2 =
      { s with scheduledSounds := s.scheduledSounds ++
          [⟨p, text, max (t.getD env.now) s.audioLock,
            max (t.getD env.now) s.audioLock + env.dur p text⟩] } := by
  unfold playSentence
  simp [h]

theorem playSentence_snd_empty (env : Env) (s : AppState) (p : Player) (t : Option Time) :
    (playSentence env s p "" t).2 = s := by
  unfold playSentence
  simp

theorem playSentence_snd (env : Env) (s : AppState) (p : Player) (text : String)
    (t : Option Time) :
    ∃ tail, (playSentence env s p text t).2 =
      { s with scheduledSounds := s.scheduledSounds ++ tail } := by
  by_cases h : text = ""
  · subst h
    refine ⟨[], ?_⟩
    rw [playSentence_snd_empty]
    cases s
    simp
  · exact ⟨_, playSentence_snd_of_ne env s p text t h⟩

theorem playSentence_sounds (env : Env) (s : AppState) (p : Player) (text : String)
    (t : Option Time) :
    (playSentence env s p text t).2.scheduledSounds =
      s.scheduledSounds ++ playTail env s p text t := by
  unfold playSentence playTail
  dsimp only
  split <;> simp

theorem playTail_eq_of_ne (env : Env) (s : AppState) (p : Player) (text : String)
    (t : Option Time) (h : text ≠ "") :
    playTail env s p text t =
      [⟨p, text, max (t.getD env.now) s.audioLock,
        max (t.getD env.now) s.audioLock + env.dur p text⟩] := by
  unfold playTail
  simp [h]

theorem respondWithAllStations_spec (env : Env) (idxs : List Nat) :
    ∀ t s, ∃ tail,
      respondWithAllStations env idxs t s =
        { s with currentStations := applyAt ensurePlayer idxs s.currentStations,
                 scheduledSounds := s.scheduledSounds ++ tail } := by
  induction idxs with
  | nil =>
    intro t s
    refine ⟨[], ?_⟩
    unfold respondWithAllStations applyAt
    cases s
    simp
  | cons i rest ih =>
    intro t s
    unfold respondWithAllStations applyAt
    cases hget : s.currentStations.get? i with
    | none =>
      simp only [hget]
      exact ih t s
    | some stn =>
      simp only [hget]
      obtain ⟨tail1, h1⟩ := playSentence_snd env
        { s with currentStations := s.currentStations.set i (ensurePlayer stn) }
        (boundPlayer (ensurePlayer stn)) (ensurePlayer stn).callsign (some t)
      rw [h1]
      obtain ⟨tail2, h2⟩ := ih
        (playSentence env
          { s with currentStations := s.currentStations.set i (ensurePlayer stn) }
          (boundPlayer (ensurePlayer stn)) (ensurePlayer stn).callsign (some t)).1
        { s with currentStations := s.currentStations.set i (ensurePlayer stn),
                 scheduledSounds := s.scheduledSounds ++ tail1 }
      rw [h2]
      refine ⟨tail1 ++ tail2, ?_⟩
      cases s
      simp

theorem respondAll_currentStations (env : Env) (idxs : List Nat) (t : Time) (s : AppState) :
    (respondWithAllStations env idxs t s).currentStations =
      applyAt ensurePlayer idxs s.currentStations := by
  obtain ⟨tail, h⟩ := respondWithAllStations_spec env idxs t s
  rw [h]

theorem respondAll_frame (env : Env) (idxs : List Nat) (t : Time) (s : AppState) :
    (respondWithAllStations env idxs t s).readyForTU = s.readyForTU ∧
    (respondWithAllStations env idxs t s).activeStationIndex = s.activeStationIndex ∧
    (respondWithAllStations env idxs t s).currentStationAttempts = s.currentStationAttempts ∧
    (respondWithAllStations env idxs t s).resultsTable = s.resultsTable ∧
    (respondWithAllStations env idxs t s).lastRespondingStations = s.lastRespondingStations ∧
    (respondWithAllStations env idxs t s).currentStation = s.currentStation ∧
    (respondWithAllStations env idxs t s).totalContacts = s.totalContacts ∧
    (respondWithAllStations env idxs t s).currentMode = s.currentMode ∧
    (respondWithAllStations env idxs t s).inputs = s.inputs ∧
    (respondWithAllStations env idxs t s).yourStation = s.yourStation ∧
    (respondWithAllStations env idxs t s).currentStationStartTime = s.currentStationStartTime ∧
    (respondWithAllStations env idxs t s).backgroundStaticPlaying = s.backgroundStaticPlaying ∧
    (respondWithAllStations env idxs t s).audioLock = s.audioLock := by
  obtain ⟨tail, h⟩ := respondWithAllStations_spec env idxs t s
  rw [h]
  exact ⟨rfl, rfl, rfl, rfl, rfl, rfl, rfl, rfl, rfl, rfl, rfl, rfl, rfl⟩

/-! ### The claim theorems -/

/-- C5: every user-facing action that would produce audio (`cq`, `send`,
`tu`) silently declines while the clock is still before the AudioLock
watermark: it returns the state unchanged, so no audio is scheduled and
no session state is touched. -/
theorem locked_actions_decline (env : Env) (s : AppState) (h : env.now < s.audioLock) :
    cq env s = s ∧ send env s = s ∧ tu env s = s := by
  have hb : getAudioLock env s = true := by simp [getAudioLock, h]
  refine ⟨?_, ?_, ?_⟩ <;> simp [cq, send, tu, hb]

/-- Witness for C5 at a concrete busy state. -/
theorem locked_actions_decline_witness :
    cq baseEnv lockedState = lockedState ∧ send baseEnv lockedState = lockedState ∧
    tu baseEnv lockedState = lockedState :=
  locked_actions_decline baseEnv lockedState (by decide)

/-- C7: `reset` returns the attempt counter, contact counter, registry
(multi-station list and single-mode station), lock watermark, the
`readyForTU` flag and the UI text fields to their initial values, and
leaves the selected mode unchanged, whatever the prior state was. -/
theorem reset_clears_session (s : AppState) :
    (reset s).currentStationAttempts = 0 ∧ (reset s).totalContacts = 0 ∧
    (reset s).currentStations = [] ∧ (reset s).currentStation = none ∧
    (reset s).activeStationIndex = none ∧ (reset s).readyForTU = false ∧
    (reset s).audioLock = 0 ∧ (reset s).responseField = "" ∧
    (reset s).infoField = "" ∧ (reset s).infoField2 = "" ∧
    (reset s).currentMode = s.currentMode := by
  unfold reset updateAudioLock stopAllAudio
  exact ⟨rfl, rfl, rfl, rfl, rfl, rfl, rfl, rfl, rfl, rfl, rfl⟩

/-- C8: `stop` silences all scheduled audio and frees the lock; the
multi-station registry, active index and `readyForTU` flag are never
touched; the active single-mode station is cleared exactly when the
current mode is `single`. -/
theorem stop_silences_and_preserves_registry (s : AppState) :
    (stop s).scheduledSounds = [] ∧ (stop s).audioLock = 0 ∧
    (stop s).currentStations = s.currentStations ∧
    (stop s).activeStationIndex = s.activeStationIndex ∧
    (stop s).readyForTU = s.readyForTU ∧
    (s.currentMode = "single" →
      (stop s).currentStation = none ∧ (stop s).currentStationAttempts = 0 ∧
      (stop s).currentStationStartTime = none) ∧
    (s.currentMode ≠ "single" →
      (stop s).currentStation = s.currentStation ∧
      (stop s).currentStationAttempts = s.currentStationAttempts ∧
      (stop s).currentStationStartTime = s.currentStationStartTime) := by
  by_cases h : s.currentMode = "single" <;> simp [stop, stopAllAudio, h]

/-- Witness for C8 at a concrete single-mode state with an active
station. -/
theorem stop_silences_and_preserves_registry_witness :
    (stop singleReadyState).scheduledSounds = [] ∧
    (stop singleReadyState).audioLock = 0 ∧
    (stop singleReadyState).currentStation = none ∧
    (stop singleReadyState).currentStations = singleReadyState.currentStations := by
  obtain ⟨h1, h2, h3, _, _, h6, _⟩ := stop_silences_and_preserves_registry singleReadyState
  exact ⟨h1, h2, (h6 rfl).1, h3⟩

/-- C3 counterexample: with an invalid trainee configuration and a free
channel, `cq` is not free of side effects — it starts the background
noise layer (which was off) and overwrites the previously stored inputs
with the null result before aborting. -/
theorem cq_invalid_config_cex :
    invalidEnv.getInputsResult = none ∧
    heldInputsState.backgroundStaticPlaying = false ∧
    heldInputsState.inputs = some ⟨true, []⟩ ∧
    (cq invalidEnv heldInputsState).backgroundStaticPlaying = true ∧
    (cq invalidEnv heldInputsState).inputs = none :=
  ⟨rfl, rfl, rfl, rfl, rfl⟩

/-- C3 amended: with an invalid trainee configuration (`getInputs()`
null), a free channel, and the mode guard passing, `cq` aborts without
scheduling any audio, adding any station, or touching the lock or the
rest of the session state — but it does start the background noise
layer (if it was not already playing) and it overwrites the stored
inputs with the null result. -/
theorem cq_invalid_config_amended (env : Env) (s : AppState)
    (hlock : ¬ env.now < s.audioLock)
    (hguard : (env.modeLogicConfig s.currentMode).showTuStep = true ∨ s.currentStation = none)
    (hinp : env.getInputsResult = none) :
    cq env s = { s with inputs := none, backgroundStaticPlaying := true } := by
  have hb : getAudioLock env s = false := by simp [getAudioLock, hlock]
  have hg : ((!(env.modeLogicConfig s.currentMode).showTuStep) && s.currentStation.isSome)
      = false := by
    rcases hguard with h | h
    · simp [h]
    · simp [h]
  unfold cq
  simp only [hb, hg, hinp, Bool.false_eq_true, if_false]
  cases hbsp : s.backgroundStaticPlaying <;>
    · cases s
      simp_all [createBackgroundStatic]

/-- Witness for the amended C3 at a concrete invalid-configuration
call. -/
theorem cq_invalid_config_amended_witness :
    cq invalidEnv heldInputsState =
      { heldInputsState with inputs := none, backgroundStaticPlaying := true } :=
  cq_invalid_config_amended invalidEnv heldInputsState (by decide) (Or.inr rfl) rfl

theorem qrsUpdate_fix (stn : Station) (h1 : stn.enableFarnsworth = true)
    (h2 : stn.farnsworthSpeed = 5) :
    (qrsUpdate stn).enableFarnsworth = true ∧ (qrsUpdate stn).farnsworthSpeed = 5 := by
  unfold qrsUpdate farnsworthLowerBy
  rw [h1]
  simp [h2]

theorem qrsUpdate_chain_20 (stn : Station) (h1 : stn.enableFarnsworth = false)
    (h2 : stn.wpm = 20) :
    (qrsUpdate stn).enableFarnsworth = true ∧
    (qrsUpdate stn).farnsworthSpeed = 14 ∧
    (qrsUpdate^[2] stn).farnsworthSpeed = 8 ∧
    (qrsUpdate^[3] stn).farnsworthSpeed = 5 ∧
    ∀ n, 3 ≤ n → (qrsUpdate^[n] stn).farnsworthSpeed = 5 := by
  have e1 : qrsUpdate stn = { stn with enableFarnsworth := true, farnsworthSpeed := 14 } := by
    unfold qrsUpdate farnsworthLowerBy
    rw [h1]
    simp [h2]
  have e2 : qrsUpdate^[2] stn =
      { stn with enableFarnsworth := true, farnsworthSpeed := 8 } := by
    have h21 : qrsUpdate^[2] stn = qrsUpdate (qrsUpdate stn) := by
      rw [show (2 : Nat) = 1 + 1 from rfl, Function.iterate_succ_apply', Function.iterate_one]
    rw [h21, e1]
    unfold qrsUpdate farnsworthLowerBy
    norm_num
  have e3 : qrsUpdate^[3] stn =
      { stn with enableFarnsworth := true, farnsworthSpeed := 5 } := by
    rw [show (3 : Nat) = 2 + 1 from rfl, Function.iterate_succ_apply', e2]
    unfold qrsUpdate farnsworthLowerBy
    norm_num
  refine ⟨by rw [e1], by rw [e1], by rw [e2], by rw [e3], ?_⟩
  intro n hn
  induction n, hn using Nat.le_induction with
  | base => rw [e3]
  | succ n hn ih =>
    rw [Function.iterate_succ_apply']
    have hen : (qrsUpdate^[n] stn).enableFarnsworth = true := by
      rcases Nat.exists_eq_add_of_le hn with ⟨k, hk⟩
      subst hk
      rw [Nat.add_comm, Function.iterate_add_apply, e3]
      clear ih
      induction k with
      | zero => rfl
      | succ k _ =>
        rw [Function.iterate_succ_apply', qrsUpdate_enableFarnsworth]
    exact (qrsUpdate_fix _ hen ih).2

theorem sendMultiQRS_spec (env : Env) (s : AppState) (t : Time) :
    (sendMultiQRS env s t).currentStations =
      applyAt ensurePlayer (s.lastRespondingStations.getD [])
        (applyAt qrsUpdate (s.lastRespondingStations.getD []) s.currentStations) ∧
    (sendMultiQRS env s t).currentStationAttempts = s.currentStationAttempts + 1 ∧
    (sendMultiQRS env s t).currentStation = s.currentStation ∧
    (sendMultiQRS env s t).readyForTU = s.readyForTU ∧
    (sendMultiQRS env s t).activeStationIndex = s.activeStationIndex := by
  unfold sendMultiQRS
  obtain ⟨tail, h⟩ := respondWithAllStations_spec env (s.lastRespondingStations.getD []) t
    { s with currentStations :=
        applyAt qrsUpdate (s.lastRespondingStations.getD []) s.currentStations }
  dsimp only
  rw [h]
  exact ⟨rfl, rfl, rfl, rfl, rfl⟩

theorem send_dispatch (env : Env) (s : AppState) (hlock : ¬ env.now < s.audioLock)
    (htext : jsToUpperCase (jsTrim s.responseField) ≠ "") :
    send env s =
      (if (env.modeLogicConfig s.currentMode).showTuStep
       then sendMulti env s (jsToUpperCase (jsTrim s.responseField))
       else sendSingle env s (jsToUpperCase (jsTrim s.responseField))) := by
  have hb : getAudioLock env s = false := by simp [getAudioLock, hlock]
  unfold send
  simp only [hb, Bool.false_eq_true, if_false, htext]

theorem playSentence_currentStation (env : Env) (s : AppState) (p : Player)
    (text : String) (t : Option Time) :
    (playSentence env s p text t).2.currentStation = s.currentStation := by
  unfold playSentence
  dsimp only
  split <;> rfl

theorem playSentence_currentStations (env : Env) (s : AppState) (p : Player)
    (text : String) (t : Option Time) :
    (playSentence env s p text t).2.currentStations = s.currentStations := by
  unfold playSentence
  dsimp only
  split <;> rfl

theorem playSentence_attempts (env : Env) (s : AppState) (p : Player)
    (text : String) (t : Option Time) :
    (playSentence env s p text t).2.currentStationAttempts = s.currentStationAttempts := by
  unfold playSentence
  dsimp only
  split <;> rfl

theorem playSentence_readyForTU (env : Env) (s : AppState) (p : Player)
    (text : String) (t : Option Time) :
    (playSentence env s p text t).2.readyForTU = s.readyForTU := by
  unfold playSentence
  dsimp only
  split <;> rfl

theorem playSentence_activeStationIndex (env : Env) (s : AppState) (p : Player)
    (text : String) (t : Option Time) :
    (playSentence env s p text t).2.activeStationIndex = s.activeStationIndex := by
  unfold playSentence
  dsimp only
  split <;> rfl

theorem playSentence_lastResponding (env : Env) (s : AppState) (p : Player)
    (text : String) (t : Option Time) :
    (playSentence env s p text t).2.lastRespondingStations = s.lastRespondingStations := by
  unfold playSentence
  dsimp only
  split <;> rfl

theorem playSentence_resultsTable (env : Env) (s : AppState) (p : Player)
    (text : String) (t : Option Time) :
    (playSentence env s p text t).2.resultsTable = s.resultsTable := by
  unfold playSentence
  dsimp only
  split <;> rfl

theorem playSentence_totalContacts (env : Env) (s : AppState) (p : Player)
    (text : String) (t : Option Time) :
    (playSentence env s p text t).2.totalContacts = s.totalContacts := by
  unfold playSentence
  dsimp only
  split <;> rfl

theorem playSentence_yourStation (env : Env) (s : AppState) (p : Player)
    (text : String) (t : Option Time) :
    (playSentence env s p text t).2.yourStation = s.yourStation := by
  unfold playSentence
  dsimp only
  split <;> rfl

theorem playSentence_inputs (env : Env) (s : AppState) (p : Player)
    (text : String) (t : Option Time) :
    (playSentence env s p text t).2.inputs = s.inputs := by
  unfold playSentence
  dsimp only
  split <;> rfl

theorem playSentence_currentMode (env : Env) (s : AppState) (p : Player)
    (text : String) (t : Option Time) :
    (playSentence env s p text t).2.currentMode = s.currentMode := by
  unfold playSentence
  dsimp only
  split <;> rfl

theorem playSentence_startTime (env : Env) (s : AppState) (p : Player)
    (text : String) (t : Option Time) :
    (playSentence env s p text t).2.currentStationStartTime = s.currentStationStartTime := by
  unfold playSentence
  dsimp only
  split <;> rfl

theorem sendMulti_qrs_spec (env : Env) (s : AppState)
    (hne : ¬ s.currentStations.length = 0) :
    (sendMulti env s "QRS").currentStations =
      applyAt ensurePlayer (s.lastRespondingStations.getD [])
        (applyAt qrsUpdate (s.lastRespondingStations.getD []) s.currentStations) ∧
    (sendMulti env s "QRS").currentStationAttempts = s.currentStationAttempts + 1 ∧
    (sendMulti env s "QRS").currentStation = s.currentStation ∧
    (sendMulti env s "QRS").readyForTU = s.readyForTU ∧
    (sendMulti env s "QRS").activeStationIndex = s.activeStationIndex := by
  unfold sendMulti
  rw [if_neg hne]
  dsimp only
  rw [if_neg (show ¬("QRS" = "?" ∨ "QRS" = "AGN" ∨ "QRS" = "AGN?") by decide),
    if_pos (show "QRS" = "QRS" from rfl)]
  exact sendMultiQRS_spec env _ _

theorem sendSingle_qrs_spec (env : Env) (s : AppState) (cur : Station)
    (hcur : s.currentStation = some cur) :
    (sendSingle env s "QRS").currentStation =
      some { qrsUpdate cur with player := some (createMorsePlayer (qrsUpdate cur)) } ∧
    (sendSingle env s "QRS").currentStationAttempts = s.currentStationAttempts + 1 ∧
    (sendSingle env s "QRS").currentStations = s.currentStations ∧
    (sendSingle env s "QRS").readyForTU = s.readyForTU ∧
    (sendSingle env s "QRS").activeStationIndex = s.activeStationIndex := by
  unfold sendSingle
  rw [hcur]
  dsimp only
  rw [if_neg (show ¬("QRS" = "?" ∨ "QRS" = "AGN" ∨ "QRS" = "AGN?") by decide),
    if_pos (show "QRS" = "QRS" from rfl)]
  unfold updateAudioLock
  refine ⟨?_, ?_, ?_, ?_, ?_⟩ <;>
    simp only [playSentence_currentStation, playSentence_currentStations,
      playSentence_attempts, playSentence_readyForTU, playSentence_activeStationIndex]

/-- C1: a QRS send applies the Farnsworth slow-down to every targeted
station (the last-responding set in multi-station modes, the active
station in single mode): if Farnsworth was not enabled it is enabled at
`wpm - 6`, otherwise the speed drops by 6 with floor 5; iterating from
`wpm = 20` gives 14, 8, 5 and then stays at 5. -/
theorem qrs_send_lowers_farnsworth (env : Env) (s : AppState)
    (hlock : ¬ env.now < s.audioLock)
    (hqrs : jsToUpperCase (jsTrim s.responseField) = "QRS") :
    ((env.modeLogicConfig s.currentMode).showTuStep = true →
      ¬ s.currentStations.length = 0 →
      ∀ idxs, s.lastRespondingStations = some idxs → idxs.Nodup →
      ∀ i ∈ idxs, ∀ stn, s.currentStations.get? i = some stn →
        ∃ stn2, (send env s).currentStations.get? i = some stn2 ∧
          stn2.enableFarnsworth = true ∧
          stn2.farnsworthSpeed =
            (if stn.enableFarnsworth then max 5 (stn.farnsworthSpeed - 6)
             else stn.wpm - 6)) ∧
    ((env.modeLogicConfig s.currentMode).showTuStep = false →
      ∀ cur, s.currentStation = some cur →
        ∃ cur2, (send env s).currentStation = some cur2 ∧
          cur2.enableFarnsworth = true ∧
          cur2.farnsworthSpeed =
            (if cur.enableFarnsworth then max 5 (cur.farnsworthSpeed - 6)
             else cur.wpm - 6)) ∧
    (∀ stn : Station, stn.enableFarnsworth = false → stn.wpm = 20 →
      (qrsUpdate stn).enableFarnsworth = true ∧
      (qrsUpdate stn).farnsworthSpeed = 14 ∧
      (qrsUpdate^[2] stn).farnsworthSpeed = 8 ∧
      (qrsUpdate^[3] stn).farnsworthSpeed = 5 ∧
      ∀ n, 3 ≤ n → (qrsUpdate^[n] stn).farnsworthSpeed = 5) := by
  have htext : jsToUpperCase (jsTrim s.responseField) ≠ "" := by
    rw [hqrs]
    decide
  have hd := send_dispatch env s hlock htext
  refine ⟨?_, ?_, ?_⟩
  · intro hmode hne idxs hidxs hnd i hi stn hstn
    rw [hd, if_pos hmode, hqrs]
    obtain ⟨hcs, -, -, -, -⟩ := sendMulti_qrs_spec env s hne
    rw [hcs, hidxs, Option.getD_some]
    have hmid : (applyAt qrsUpdate idxs s.currentStations).get? i = some (qrsUpdate stn) :=
      applyAt_get?_mem qrsUpdate idxs hnd i hi s.currentStations stn hstn
    have hout := applyAt_get?_mem ensurePlayer idxs hnd i hi _ _ hmid
    refine ⟨ensurePlayer (qrsUpdate stn), hout, ?_, ?_⟩
    · rw [ensurePlayer_enableFarnsworth, qrsUpdate_enableFarnsworth]
    · rw [ensurePlayer_farnsworthSpeed, qrsUpdate_farnsworthSpeed]
  · intro hmode cur hcur
    rw [hd, if_neg (by simp [hmode]), hqrs]
    obtain ⟨h1, -, -, -, -⟩ := sendSingle_qrs_spec env s cur hcur
    refine ⟨_, h1, ?_, ?_⟩
    · exact qrsUpdate_enableFarnsworth cur
    · exact qrsUpdate_farnsworthSpeed cur
  · intro stn h1 h2
    exact qrsUpdate_chain_20 stn h1 h2

/-- Witness for C1: a QRS send at a concrete contest-mode state with
one last-responding station at 20 wpm and no Farnsworth yet. -/
theorem qrs_send_lowers_farnsworth_witness :
    ∃ stn2,
      (send laterEnv { multiCalledState with responseField := "QRS" }).currentStations.get? 0 =
        some stn2 ∧
      stn2.enableFarnsworth = true ∧ stn2.farnsworthSpeed = 14 := by
  obtain ⟨hmulti, -, -⟩ := qrs_send_lowers_farnsworth laterEnv
    { multiCalledState with responseField := "QRS" } (by decide) (by decide)
  obtain ⟨stn2, ha, hb, hc⟩ := hmulti rfl (by decide) [0] rfl (by decide) 0 (by decide) _ rfl
  exact ⟨stn2, ha, hb, by simpa using hc⟩

/-- C9: a QRS send rebinds each targeted station's Tone Scheduler to a
new instance built from the updated timing parameters — in single mode
(where `app.js` reassigns `currentStation.player` directly) and in
multi-station modes (where the resend path refreshes each player)
alike: afterwards the bound player equals `createMorsePlayer` of the
updated station. -/
theorem qrs_replaces_player (env : Env) (s : AppState)
    (hlock : ¬ env.now < s.audioLock)
    (hqrs : jsToUpperCase (jsTrim s.responseField) = "QRS") :
    ((env.modeLogicConfig s.currentMode).showTuStep = true →
      ¬ s.currentStations.length = 0 →
      ∀ idxs, s.lastRespondingStations = some idxs → idxs.Nodup →
      ∀ i ∈ idxs, ∀ stn, s.currentStations.get? i = some stn →
        ∃ stn2, (send env s).currentStations.get? i = some stn2 ∧
          stn2.player = some (createMorsePlayer stn2)) ∧
    ((env.modeLogicConfig s.currentMode).showTuStep = false →
      ∀ cur, s.currentStation = some cur →
        ∃ cur2, (send env s).currentStation = some cur2 ∧
          cur2.player = some (createMorsePlayer cur2)) := by
  have htext : jsToUpperCase (jsTrim s.responseField) ≠ "" := by
    rw [hqrs]
    decide
  have hd := send_dispatch env s hlock htext
  constructor
  · intro hmode hne idxs hidxs hnd i hi stn hstn
    rw [hd, if_pos hmode, hqrs]
    obtain ⟨hcs, -, -, -, -⟩ := sendMulti_qrs_spec env s hne
    rw [hcs, hidxs, Option.getD_some]
    have hmid : (applyAt qrsUpdate idxs s.currentStations).get? i = some (qrsUpdate stn) :=
      applyAt_get?_mem qrsUpdate idxs hnd i hi s.currentStations stn hstn
    have hout := applyAt_get?_mem ensurePlayer idxs hnd i hi _ _ hmid
    refine ⟨ensurePlayer (qrsUpdate stn), hout, ?_⟩
    rw [ensurePlayer_player, createMorsePlayer_ensurePlayer]
  · intro hmode cur hcur
    rw [hd, if_neg (by simp [hmode]), hqrs]
    obtain ⟨h1, -, -, -, -⟩ := sendSingle_qrs_spec env s cur hcur
    exact ⟨_, h1, rfl⟩

/-- Witness for C9: the same concrete QRS send, observing the rebuilt
player. -/
theorem qrs_replaces_player_witness :
    ∃ stn2,
      (send laterEnv { multiCalledState with responseField := "QRS" }).currentStations.get? 0 =
        some stn2 ∧
      stn2.player = some (createMorsePlayer stn2) := by
  obtain ⟨hmulti, -⟩ := qrs_replaces_player laterEnv
    { multiCalledState with responseField := "QRS" } (by decide) (by decide)
  exact hmulti rfl (by decide) [0] rfl (by decide) 0 (by decide) _ rfl

theorem sendMultiMatch_nomatch (env : Env) (s : AppState) (t : Time) (text : String)
    (hres : ∀ stn ∈ s.currentStations,
      env.compareStrings stn.callsign (stripQuestionMark text) ≠ "perfect" ∧
      env.compareStrings stn.callsign (stripQuestionMark text) ≠ "partial") :
    sendMultiMatch env s t text =
      { s with currentStationAttempts := s.currentStationAttempts + 1 } := by
  unfold sendMultiMatch
  have hp : "perfect" ∉ s.currentStations.map
      (fun stn => env.compareStrings stn.callsign (stripQuestionMark text)) := by
    intro hmem
    obtain ⟨stn, hstn, heq⟩ := List.mem_map.mp hmem
    exact (hres stn hstn).1 heq
  have hq : "partial" ∉ s.currentStations.map
      (fun stn => env.compareStrings stn.callsign (stripQuestionMark text)) := by
    intro hmem
    obtain ⟨stn, hstn, heq⟩ := List.mem_map.mp hmem
    exact (hres stn hstn).2 heq
  rw [if_neg (by simp [hp]), if_neg (by simp [hq])]

/-- C4 counterexample: in single mode a send that matches nothing does
produce further audio — the station re-sends its callsign (a second
scheduled sound), contradicting the claim that the attempt counter is
the only change with no station reply in both modes. -/
theorem nomatch_single_resends_cex :
    laterEnv.compareStrings "K1ABC" "ZZZ" = "none" ∧
    ({ singleReadyState with responseField := "ZZZ" } : AppState).scheduledSounds = [] ∧
    ((send laterEnv { singleReadyState with responseField := "ZZZ" }).scheduledSounds.map
      (fun x => x.text)) = ["ZZZ", "K1ABC"] :=
  ⟨rfl, rfl, rfl⟩

/-- C4 amended: on a send that matches no active station, in
multi-station modes the only session-state change is the attempt
counter incrementing, with no station reply (only the trainee's own
keying is scheduled); in single mode the attempt counter increments and
the station additionally re-sends its callsign. -/
theorem nomatch_only_increments_attempts_amended (env : Env) (s : AppState)
    (hlock : ¬ env.now < s.audioLock)
    (htext : jsToUpperCase (jsTrim s.responseField) ≠ "")
    (h1 : jsToUpperCase (jsTrim s.responseField) ≠ "?")
    (h2 : jsToUpperCase (jsTrim s.responseField) ≠ "AGN")
    (h3 : jsToUpperCase (jsTrim s.responseField) ≠ "AGN?")
    (h4 : jsToUpperCase (jsTrim s.responseField) ≠ "QRS") :
    ((env.modeLogicConfig s.currentMode).showTuStep = true →
      ¬ s.currentStations.length = 0 →
      (∀ stn ∈ s.currentStations,
        env.compareStrings stn.callsign
          (stripQuestionMark (jsToUpperCase (jsTrim s.responseField))) ≠ "perfect" ∧
        env.compareStrings stn.callsign
          (stripQuestionMark (jsToUpperCase (jsTrim s.responseField))) ≠ "partial") →
      (send env s).currentStations = s.currentStations ∧
      (send env s).readyForTU = s.readyForTU ∧
      (send env s).activeStationIndex = s.activeStationIndex ∧
      (send env s).lastRespondingStations = s.lastRespondingStations ∧
      (send env s).resultsTable = s.resultsTable ∧
      (send env s).totalContacts = s.totalContacts ∧
      (send env s).currentStation = s.currentStation ∧
      (send env s).currentStationAttempts = s.currentStationAttempts + 1 ∧
      ∃ snd, (send env s).scheduledSounds = s.scheduledSounds ++ [snd]) ∧
    ((env.modeLogicConfig s.currentMode).showTuStep = false →
      ∀ cur, s.currentStation = some cur → cur.callsign ≠ "" →
      env.compareStrings cur.callsign
        (stripQuestionMark (jsToUpperCase (jsTrim s.responseField))) ≠ "perfect" →
      env.compareStrings cur.callsign
        (stripQuestionMark (jsToUpperCase (jsTrim s.responseField))) ≠ "partial" →
      (send env s).currentStations = s.currentStations ∧
      (send env s).currentStation = some cur ∧
      (send env s).resultsTable = s.resultsTable ∧
      (send env s).currentStationAttempts = s.currentStationAttempts + 1 ∧
      ∃ snd1 snd2, (send env s).scheduledSounds = s.scheduledSounds ++ [snd1, snd2] ∧
        snd2.text = cur.callsign) := by
  have hd := send_dispatch env s hlock htext
  constructor
  · intro hmode hne hres
    rw [hd, if_pos hmode]
    unfold sendMulti
    rw [if_neg hne]
    dsimp only
    rw [if_neg (not_or.mpr ⟨h1, not_or.mpr ⟨h2, h3⟩⟩), if_neg h4]
    rw [playSentence_snd_of_ne env s _ _ none htext]
    rw [sendMultiMatch_nomatch env _ _ _ (by simpa using hres)]
    exact ⟨rfl, rfl, rfl, rfl, rfl, rfl, rfl, rfl, ⟨_, rfl⟩⟩
  · intro hmode cur hcur hcs hp hq
    rw [hd, if_neg (by simp [hmode])]
    unfold sendSingle
    rw [hcur]
    dsimp only
    rw [if_neg (not_or.mpr ⟨h1, not_or.mpr ⟨h2, h3⟩⟩), if_neg h4, if_neg hp, if_neg hq]
    rw [playSentence_snd_of_ne env s _ _ none htext]
    rw [playSentence_snd_of_ne env _ _ _ _ hcs]
    unfold updateAudioLock
    refine ⟨rfl, hcur, rfl, rfl, ?_⟩
    dsimp only
    rw [List.append_assoc]
    exact ⟨_, _, rfl, rfl⟩

theorem string_ne_empty_of_data {x : String} (h : x.data ≠ []) : x ≠ "" := by
  intro hc
  subst hc
  exact h rfl

theorem space_append_ne_empty (x : String) : (" " ++ x) ≠ "" := by
  apply string_ne_empty_of_data
  show ' ' :: x.data ≠ []
  simp

theorem applyCutNumbers_ne_empty (m : List (Char × Char)) (x : String) (h : x ≠ "") :
    applyCutNumbers m x ≠ "" := by
  apply string_ne_empty_of_data
  show x.data.map _ ≠ []
  simp only [ne_eq, List.map_eq_nil_iff]
  intro hc
  apply h
  cases x
  simp_all

/-- C6 counterexample: in single mode, with cut numbers enabled and a
map that rewrites the digits of the exchange, the perfect-match path
synthesizes the raw exchange texts — the digit `5` of `5NN 7` is not
transliterated (and `599`-style digits in the trainee exchange are kept
as well), contradicting "in multi-station modes and in single mode
alike". -/
theorem cut_numbers_single_mode_cex :
    (singleReadyState.inputs.getD ⟨false, []⟩).enableCutNumbers = true ∧
    applyCutNumbers [('5', 'E'), ('9', 'N')] "5NN 7" = "ENN 7" ∧
    ((laterEnv.modeLogicConfig singleReadyState.currentMode).theirExchange
      (singleReadyState.yourStation.getD defaultStation)
      (singleReadyState.currentStation.getD defaultStation) none) = "5NN 7" ∧
    ((send laterEnv singleReadyState).scheduledSounds.map (fun x => x.text)) =
      ["K1ABC", " K1ABC 5NN", "5NN 7", "TU", "GL", "K1ABC"] :=
  ⟨rfl, rfl, rfl, rfl⟩

set_option maxHeartbeats 2000000 in
/-- C6 amended: with cut numbers enabled, the digit-to-letter
transliteration is applied to both exchange texts on the perfect-match
exchange path of multi-station modes only; the single-mode
perfect-match path synthesizes both exchange texts raw. -/
theorem cut_numbers_multi_only_amended (env : Env) (s : AppState)
    (hlock : ¬ env.now < s.audioLock)
    (htext : jsToUpperCase (jsTrim s.responseField) ≠ "")
    (h1 : jsToUpperCase (jsTrim s.responseField) ≠ "?")
    (h2 : jsToUpperCase (jsTrim s.responseField) ≠ "AGN")
    (h3 : jsToUpperCase (jsTrim s.responseField) ≠ "AGN?")
    (h4 : jsToUpperCase (jsTrim s.responseField) ≠ "QRS")
    (hqm : jsIncludesChar (jsToUpperCase (jsTrim s.responseField)) '?' = false)
    (inp : Inputs) (hinp : s.inputs = some inp) (hcut : inp.enableCutNumbers = true) :
    ((env.modeLogicConfig s.currentMode).showTuStep = true →
      ¬ s.currentStations.length = 0 →
      (s.currentStations.map (fun stn => env.compareStrings stn.callsign
        (stripQuestionMark (jsToUpperCase (jsTrim s.responseField))))).contains "perfect"
        = true →
      (env.modeLogicConfig s.currentMode).theirExchange
        (s.yourStation.getD defaultStation)
        (s.currentStations.getD
          ((s.currentStations.map (fun stn => env.compareStrings stn.callsign
            (stripQuestionMark (jsToUpperCase (jsTrim s.responseField))))).indexOf "perfect")
          defaultStation) none ≠ "" →
      ∃ snd1 snd2 snd3,
        (send env s).scheduledSounds = s.scheduledSounds ++ [snd1, snd2, snd3] ∧
        snd2.text = applyCutNumbers inp.cutNumbers
          (" " ++ (env.modeLogicConfig s.currentMode).yourExchange
            (s.yourStation.getD defaultStation)
            (s.currentStations.getD
              ((s.currentStations.map (fun stn => env.compareStrings stn.callsign
                (stripQuestionMark (jsToUpperCase (jsTrim s.responseField))))).indexOf
                "perfect") defaultStation) none) ∧
        snd3.text = applyCutNumbers inp.cutNumbers
          ((env.modeLogicConfig s.currentMode).theirExchange
            (s.yourStation.getD defaultStation)
            (s.currentStations.getD
              ((s.currentStations.map (fun stn => env.compareStrings stn.callsign
                (stripQuestionMark (jsToUpperCase (jsTrim s.responseField))))).indexOf
                "perfect") defaultStation) none)) ∧
    ((env.modeLogicConfig s.currentMode).showTuStep = false →
      ∀ cur, s.currentStation = some cur →
      env.compareStrings cur.callsign
        (stripQuestionMark (jsToUpperCase (jsTrim s.responseField))) = "perfect" →
      (env.modeLogicConfig s.currentMode).theirExchange
        (s.yourStation.getD defaultStation) cur none ≠ "" →
      ∃ snd1 snd2 snd3 rest,
        (send env s).scheduledSounds = s.scheduledSounds ++ [snd1, snd2, snd3] ++ rest ∧
        snd2.text = " " ++ (env.modeLogicConfig s.currentMode).yourExchange
          (s.yourStation.getD defaultStation) cur none ∧
        snd3.text = (env.modeLogicConfig s.currentMode).theirExchange
          (s.yourStation.getD defaultStation) cur none) := by
  have hd := send_dispatch env s hlock htext
  constructor
  · intro hmode hne hp hte
    rw [hd, if_pos hmode]
    unfold sendMulti
    rw [if_neg hne]
    dsimp only
    rw [if_neg (not_or.mpr ⟨h1, not_or.mpr ⟨h2, h3⟩⟩), if_neg h4]
    rw [playSentence_snd_of_ne env s _ _ none htext]
    unfold sendMultiMatch updateAudioLock
    dsimp only
    rw [if_pos hp, if_neg (by simp [hqm]), hinp]
    simp only [Option.getD_some]
    rw [if_pos hcut, if_pos hcut]
    rw [playSentence_snd_of_ne env _ _ _ _
      (applyCutNumbers_ne_empty _ _ (space_append_ne_empty _))]
    rw [playSentence_snd_of_ne env _ _ _ _ (applyCutNumbers_ne_empty _ _ hte)]
    dsimp only
    simp only [List.append_assoc, List.singleton_append, List.cons_append, List.nil_append]
    exact ⟨_, _, _, rfl, rfl, rfl⟩
  · intro hmode cur hcur hperf hte
    rw [hd, if_neg (by simp [hmode])]
    unfold sendSingle
    rw [hcur]
    dsimp only
    rw [if_neg (not_or.mpr ⟨h1, not_or.mpr ⟨h2, h3⟩⟩), if_neg h4, if_pos hperf,
      if_neg (by simp [hqm])]
    unfold sendSinglePerfect nextSingleStation updateAudioLock
    dsimp only
    simp only [playSentence_sounds, playSentence_yourStation, playSentence_currentMode,
      playSentence_currentStation, playSentence_attempts, playSentence_startTime,
      playSentence_totalContacts, playSentence_resultsTable, playSentence_currentStations,
      playSentence_readyForTU, playSentence_activeStationIndex, playSentence_lastResponding,
      playSentence_inputs]
    rw [playTail_eq_of_ne env _ _ _ none htext,
      playTail_eq_of_ne env _ _ _ _ (space_append_ne_empty _),
      playTail_eq_of_ne env _ _ _ _ hte]
    simp only [List.append_assoc, List.cons_append, List.singleton_append, List.nil_append]
    exact ⟨_, _, _, _, rfl, rfl, rfl⟩

theorem respondAll_resultsTable (env : Env) (idxs : List Nat) (t : Time) (s : AppState) :
    (respondWithAllStations env idxs t s).resultsTable = s.resultsTable :=
  (respondAll_frame env idxs t s).2.2.2.1

theorem respondAll_readyForTU (env : Env) (idxs : List Nat) (t : Time) (s : AppState) :
    (respondWithAllStations env idxs t s).readyForTU = s.readyForTU :=
  (respondAll_frame env idxs t s).1

theorem respondAll_attempts (env : Env) (idxs : List Nat) (t : Time) (s : AppState) :
    (respondWithAllStations env idxs t s).currentStationAttempts = s.currentStationAttempts :=
  (respondAll_frame env idxs t s).2.2.1

theorem respondAll_activeStationIndex (env : Env) (idxs : List Nat) (t : Time) (s : AppState) :
    (respondWithAllStations env idxs t s).activeStationIndex = s.activeStationIndex :=
  (respondAll_frame env idxs t s).2.1

/-- Witness for the amended C4 at a concrete contest-mode no-match
send. -/
theorem nomatch_only_increments_attempts_amended_witness :
    (send laterEnv { multiCalledState with responseField := "ZZZ" }).currentStations =
      ({ multiCalledState with responseField := "ZZZ" } : AppState).currentStations ∧
    (send laterEnv { multiCalledState with responseField := "ZZZ" }).currentStationAttempts =
      ({ multiCalledState with responseField := "ZZZ" } : AppState).currentStationAttempts + 1 ∧
    ∃ snd, (send laterEnv { multiCalledState with responseField := "ZZZ" }).scheduledSounds =
      ({ multiCalledState with responseField := "ZZZ" } : AppState).scheduledSounds ++ [snd] := by
  obtain ⟨hmulti, -⟩ := nomatch_only_increments_attempts_amended laterEnv
    { multiCalledState with responseField := "ZZZ" } (by decide) (by decide) (by decide)
    (by decide) (by decide) (by decide)
  obtain ⟨hc, -, -, -, -, -, -, ha, hs⟩ := hmulti rfl (by decide) (by decide)
  exact ⟨hc, ha, hs⟩

/-- Witness for the amended C6 at a concrete contest-mode perfect-match
send with cut numbers `5 -> E`, `9 -> N`. -/
theorem cut_numbers_multi_only_amended_witness :
    ∃ snd1 snd2 snd3,
      (send laterEnv { multiCalledState with responseField := "K1ABC" }).scheduledSounds =
        ({ multiCalledState with responseField := "K1ABC" } : AppState).scheduledSounds ++
          [snd1, snd2, snd3] ∧
      snd2.text = " K1ABC ENN" ∧ snd3.text = "ENN 7" := by
  obtain ⟨hmulti, -⟩ := cut_numbers_multi_only_amended laterEnv
    { multiCalledState with responseField := "K1ABC" } (by decide) (by decide) (by decide)
    (by decide) (by decide) (by decide) (by decide)
    ⟨true, [('5', 'E'), ('9', 'N')]⟩ rfl rfl
  obtain ⟨a, b, c, h1, h2, h3⟩ := hmulti rfl (by decide) (by decide) (by decide)
  refine ⟨a, b, c, h1, ?_, ?_⟩
  · rw [h2]
    decide
  · rw [h3]
    decide

set_option maxHeartbeats 2000000 in
/-- C2: in a mode with a TU step (channel free), `tu` is a no-op unless
`readyForTU`; when `readyForTU` holds with recorded matched index `i`,
it appends exactly one ContactRecord, the registry becomes the old
registry with exactly the entry at `i` removed (every other entry kept,
up to the player rebinding of the resend pass) plus the
spec-sanctioned probabilistically admitted new stations, and the
confirmation flag and attempt counter are cleared. -/
theorem tu_logs_and_removes_matched_station (env : Env) (s : AppState)
    (hlock : ¬ env.now < s.audioLock)
    (hmode : (env.modeLogicConfig s.currentMode).showTuStep = true) :
    (s.readyForTU = false → tu env s = s) ∧
    (∀ i, s.readyForTU = true → s.activeStationIndex = some i →
      (∃ r, (tu env s).resultsTable = s.resultsTable ++ [r]) ∧
      (tu env s).currentStations.map stationCore =
        ((s.currentStations.eraseIdx i) ++
          (if env.randJoin < newStationChance ∨ env.enableContinuousChecked
           then env.newStations else [])).map stationCore ∧
      (tu env s).readyForTU = false ∧
      (tu env s).currentStationAttempts = 0) := by
  have hb : getAudioLock env s = false := by simp [getAudioLock, hlock]
  constructor
  · intro hready
    unfold tu
    simp [hb, hready]
  · intro i hready hidx
    unfold tu
    simp only [hb, Bool.false_eq_true, if_false, hmode, hready, Bool.not_true,
      Bool.false_or, Bool.or_self]
    unfold tuBody updateAudioLock addStations
    rw [hidx]
    simp only [Option.getD_some]
    cases hsig : (env.modeLogicConfig s.currentMode).theirSignoff with
    | none =>
      dsimp only
      by_cases hc : env.randJoin < newStationChance ∨ env.enableContinuousChecked
      · simp only [if_pos hc, respondAll_resultsTable, respondAll_readyForTU,
          respondAll_attempts, respondAll_currentStations, playSentence_resultsTable,
          playSentence_currentStations, playSentence_readyForTU, playSentence_attempts,
          playSentence_currentMode, playSentence_totalContacts, playSentence_startTime,
          playSentence_yourStation, playSentence_inputs]
        refine ⟨⟨_, rfl⟩, ?_, by trivial, by trivial⟩
        rw [applyAt_map ensurePlayer stationCore stationCore_ensurePlayer]
      · simp only [if_neg hc, respondAll_resultsTable, respondAll_readyForTU,
          respondAll_attempts, respondAll_currentStations, playSentence_resultsTable,
          playSentence_currentStations, playSentence_readyForTU, playSentence_attempts,
          playSentence_currentMode, playSentence_totalContacts, playSentence_startTime,
          playSentence_yourStation, playSentence_inputs]
        refine ⟨⟨_, rfl⟩, ?_, by trivial, by trivial⟩
        rw [applyAt_map ensurePlayer stationCore stationCore_ensurePlayer]
        simp
    | some f =>
      dsimp only
      by_cases hc : env.randJoin < newStationChance ∨ env.enableContinuousChecked
      · simp only [if_pos hc, respondAll_resultsTable, respondAll_readyForTU,
          respondAll_attempts, respondAll_currentStations, playSentence_resultsTable,
          playSentence_currentStations, playSentence_readyForTU, playSentence_attempts,
          playSentence_currentMode, playSentence_totalContacts, playSentence_startTime,
          playSentence_yourStation, playSentence_inputs]
        refine ⟨⟨_, rfl⟩, ?_, by trivial, by trivial⟩
        rw [applyAt_map ensurePlayer stationCore stationCore_ensurePlayer]
      · simp only [if_neg hc, respondAll_resultsTable, respondAll_readyForTU,
          respondAll_attempts, respondAll_currentStations, playSentence_resultsTable,
          playSentence_currentStations, playSentence_readyForTU, playSentence_attempts,
          playSentence_currentMode, playSentence_totalContacts, playSentence_startTime,
          playSentence_yourStation, playSentence_inputs]
        refine ⟨⟨_, rfl⟩, ?_, by trivial, by trivial⟩
        rw [applyAt_map ensurePlayer stationCore stationCore_ensurePlayer]
        simp

/-- Witness for C2 at a concrete armed contest-mode state. -/
theorem tu_logs_and_removes_matched_station_witness :
    (∃ r, (tu laterEnv tuReadyState).resultsTable = tuReadyState.resultsTable ++ [r]) ∧
    (tu laterEnv tuReadyState).readyForTU = false ∧
    (tu laterEnv tuReadyState).currentStationAttempts = 0 := by
  obtain ⟨-, hpos⟩ := tu_logs_and_removes_matched_station laterEnv tuReadyState
    (by decide) rfl
  obtain ⟨hr, -, hf, ha⟩ := hpos 0 rfl rfl
  exact ⟨hr, hf, ha⟩

theorem tuInvariant_of_fields {s s' : AppState} (h : TuInvariant s)
    (h1 : s'.readyForTU = s.readyForTU) (h2 : s'.activeStationIndex = s.activeStationIndex)
    (h3 : s.currentStations.length ≤ s'.currentStations.length) : TuInvariant s' := by
  intro hready
  rw [h1] at hready
  obtain ⟨i, hi, hl⟩ := h hready
  exact ⟨i, by rw [h2, hi], lt_of_lt_of_le hl h3⟩

theorem tuInvariant_of_not_ready {s' : AppState} (h : s'.readyForTU = false) :
    TuInvariant s' := by
  intro hready
  rw [h] at hready
  cases hready

theorem stop_tuInvariant (s : AppState) (h : TuInvariant s) : TuInvariant (stop s) := by
  by_cases hm : s.currentMode = "single" <;>
    exact tuInvariant_of_fields h (by simp [stop, stopAllAudio, hm])
      (by simp [stop, stopAllAudio, hm]) (by simp [stop, stopAllAudio, hm])

theorem cq_tuInvariant (env : Env) (s : AppState) (h : TuInvariant s) :
    TuInvariant (cq env s) := by
  unfold cq createBackgroundStatic nextSingleStation addStations updateAudioLock
  dsimp only
  refine tuInvariant_of_fields h ?_ ?_ ?_ <;>
    · repeat' split
      all_goals
        simp [playSentence_readyForTU, playSentence_activeStationIndex,
          playSentence_currentStations, respondAll_readyForTU, respondAll_activeStationIndex,
          respondAll_currentStations, applyAt_length, List.length_append]

theorem sendMultiRepeat_tuInvariant (env : Env) (sx : AppState) (t : Time)
    (h : TuInvariant sx) : TuInvariant (sendMultiRepeat env sx t) := by
  unfold sendMultiRepeat
  refine tuInvariant_of_fields h ?_ ?_ ?_ <;>
    simp only [respondAll_readyForTU, respondAll_activeStationIndex,
      respondAll_currentStations, applyAt_length, le_refl]

theorem sendMultiQRS_tuInvariant (env : Env) (sx : AppState) (t : Time)
    (h : TuInvariant sx) : TuInvariant (sendMultiQRS env sx t) := by
  unfold sendMultiQRS
  refine tuInvariant_of_fields h ?_ ?_ ?_ <;>
    simp only [respondAll_readyForTU, respondAll_activeStationIndex,
      respondAll_currentStations, applyAt_length, le_refl]

theorem sendMultiMatch_tuInvariant (env : Env) (sx : AppState) (t : Time) (text : String)
    (h : TuInvariant sx) : TuInvariant (sendMultiMatch env sx t text) := by
  unfold sendMultiMatch updateAudioLock
  dsimp only
  split
  · rename_i hcontains
    split
    · refine tuInvariant_of_fields h ?_ ?_ ?_ <;>
        simp only [playSentence_readyForTU, playSentence_activeStationIndex,
          playSentence_currentStations, le_refl]
    · intro _
      refine ⟨_, rfl, ?_⟩
      simp only [playSentence_currentStations]
      have hmem : "perfect" ∈ sx.currentStations.map
          (fun stn => env.compareStrings stn.callsign (stripQuestionMark text)) := by
        simpa using hcontains
      have := List.indexOf_lt_length.mpr hmem
      simpa using this
  · split
    · refine tuInvariant_of_fields h ?_ ?_ ?_ <;>
        simp only [respondAll_readyForTU, respondAll_activeStationIndex,
          respondAll_currentStations, applyAt_length, le_refl]
    · exact tuInvariant_of_fields h rfl rfl (le_refl _)

theorem sendMulti_tuInvariant (env : Env) (sx : AppState) (text : String)
    (h : TuInvariant sx) : TuInvariant (sendMulti env sx text) := by
  unfold sendMulti updateAudioLock
  dsimp only
  split
  · exact h
  · have hplay : TuInvariant (playSentence env sx
        (boundPlayer (sx.yourStation.getD defaultStation)) text none).2 := by
      refine tuInvariant_of_fields h ?_ ?_ ?_ <;>
        simp only [playSentence_readyForTU, playSentence_activeStationIndex,
          playSentence_currentStations, le_refl]
    have hplay' : TuInvariant { (playSentence env sx
        (boundPlayer (sx.yourStation.getD defaultStation)) text none).2 with
          audioLock := (playSentence env sx
            (boundPlayer (sx.yourStation.getD defaultStation)) text none).1 } := by
      refine tuInvariant_of_fields hplay rfl rfl (le_refl _)
    split
    · exact sendMultiRepeat_tuInvariant env _ _ hplay'
    · split
      · exact sendMultiQRS_tuInvariant env _ _ hplay'
      · exact sendMultiMatch_tuInvariant env _ _ _ hplay'

theorem sendSingle_tuInvariant (env : Env) (sx : AppState) (text : String)
    (h : TuInvariant sx) : TuInvariant (sendSingle env sx text) := by
  unfold sendSingle sendSinglePerfect nextSingleStation updateAudioLock
  cases hcur : sx.currentStation with
  | none => exact h
  | some cur =>
    dsimp only
    refine tuInvariant_of_fields h ?_ ?_ ?_ <;>
      · repeat' split
        all_goals
          simp only [playSentence_readyForTU, playSentence_activeStationIndex,
            playSentence_currentStations]
        all_goals simp

theorem tuBody_readyForTU (env : Env) (s : AppState) :
    (tuBody env s).readyForTU = false := by
  unfold tuBody updateAudioLock addStations
  dsimp only
  repeat' split
  all_goals simp only [respondAll_readyForTU]

theorem tu_tuInvariant (env : Env) (s : AppState) (h : TuInvariant s) :
    TuInvariant (tu env s) := by
  unfold tu
  split
  · exact h
  · dsimp only
    split
    · exact h
    · exact tuInvariant_of_not_ready (tuBody_readyForTU env s)

theorem send_tuInvariant (env : Env) (s : AppState) (h : TuInvariant s) :
    TuInvariant (send env s) := by
  unfold send
  split
  · exact h
  · dsimp only
    split
    · split
      · exact cq_tuInvariant env s h
      · exact h
    · split
      · exact sendMulti_tuInvariant env s _ h
      · exact sendSingle_tuInvariant env s _ h

/-- C10: on every reachable state, if `readyForTU` is armed then the
recorded `activeStationIndex` points at an existing registry entry, so
a subsequent `tu` always addresses an existing station: the arming send
records a matched in-range index, and every operation that removes the
indexed station or empties the registry clears the flag. -/
theorem ready_for_tu_index_valid (s : AppState) (h : Reachable s) : TuInvariant s := by
  induction h with
  | init mode => exact tuInvariant_of_not_ready rfl
  | step a s _ ih =>
    cases a with
    | cq env => exact cq_tuInvariant env s ih
    | send env => exact send_tuInvariant env s ih
    | tu env => exact tu_tuInvariant env s ih
    | stop => exact stop_tuInvariant s ih
    | reset => exact tuInvariant_of_not_ready rfl
    | changeMode m => exact tuInvariant_of_not_ready rfl
    | typeResponse v => exact tuInvariant_of_fields ih rfl rfl (le_refl _)
    | typeInfo v => exact tuInvariant_of_fields ih rfl rfl (le_refl _)
    | typeInfo2 v => exact tuInvariant_of_fields ih rfl rfl (le_refl _)

/-- Witness for C10: a concrete reachable state with the flag armed,
whose recorded index is in range. -/
theorem ready_for_tu_index_valid_witness :
    armedState.readyForTU = true ∧
    ∃ i, armedState.activeStationIndex = some i ∧ i < armedState.currentStations.length := by
  have hr : Reachable armedState :=
    .step _ _ (.step _ _ (.step _ _ (.step _ _ (.init "sprint"))))
  exact ⟨rfl, ready_for_tu_index_valid armedState hr rfl⟩

end MorseWalker
